import Mathlib

/-!
Verification development for a conversational hydration/nutrition tracker
(`bot.py`).  The program is shallowly embedded: Python floats are modelled
as rationals (`ℚ`), Python ints as `ℤ`, Python's `int()` conversion as
truncation toward zero (`truncQ`), Python's one-argument `round()` as
round-half-to-even (`pyRound`), and the relevant parts of Python's string
builtins (`str.lower`, `str.strip`, `str.split`, `float(..)`, `int(..)`,
substring `in`) as executable functions over `String` restricted to the
ASCII and Cyrillic ranges the program actually uses.
-/

namespace HealthBot

/-- Python `int(x)` on a float: truncation toward zero. -/
def truncQ (q : ℚ) : ℤ := if q < 0 then -⌊-q⌋ else ⌊q⌋

/-- Python one-argument `round(x)`: round to nearest, ties to even. -/
def pyRound (q : ℚ) : ℤ :=
  if q - ⌊q⌋ < 1/2 then ⌊q⌋
  else if 1/2 < q - ⌊q⌋ then ⌊q⌋ + 1
  else if 2 ∣ ⌊q⌋ then ⌊q⌋ else ⌊q⌋ + 1

/-- Model of Python `str.lower` per character, restricted to the ASCII
Latin and Cyrillic alphabets the program works with. -/
def lowerChar (c : Char) : Char :=
  if 'A' ≤ c ∧ c ≤ 'Z' then Char.ofNat (c.toNat + 32)
  else if 'А' ≤ c ∧ c ≤ 'Я' then Char.ofNat (c.toNat + 32)
  else if c = 'Ё' then 'ё'
  else c

/-- Model of Python `str.lower`. -/
def pyLower (s : String) : String := ⟨s.data.map lowerChar⟩

/-- Model of Python `str.isspace` / whitespace for `strip`/`split`. -/
def pyIsSpace (c : Char) : Bool := c.isWhitespace

/-- Model of Python `str.isalnum` restricted to ASCII alphanumerics and
the Cyrillic alphabet. -/
def pyIsAlnum (c : Char) : Bool :=
  c.isAlphanum || ('А' ≤ c && c ≤ 'я') || c = 'Ё' || c = 'ё'

/-- Model of Python `str.strip()`: drop leading and trailing whitespace. -/
def pyStrip (s : String) : String :=
  ⟨((s.data.dropWhile pyIsSpace).reverse.dropWhile pyIsSpace).reverse⟩

/-- Model of Python `s.replace(",", ".")` as used before float parsing. -/
def replaceComma (s : String) : String :=
  ⟨s.data.map fun c => if c = ',' then '.' else c⟩

/-- Auxiliary for `pySplitWs`: accumulate the current token (reversed). -/
def splitWsAux : List Char → List Char → List (List Char)
  | [], acc => if acc.isEmpty then [] else [acc.reverse]
  | c :: r, acc =>
    if pyIsSpace c then
      if acc.isEmpty then splitWsAux r [] else acc.reverse :: splitWsAux r []
    else splitWsAux r (c :: acc)

/-- Model of Python `str.split()` with no argument: split on runs of
whitespace, producing no empty tokens. -/
def pySplitWs (s : String) : List String :=
  (splitWsAux s.data []).map fun l => ⟨l⟩

/-- Model of Python substring containment `p in s`. -/
def isSubStr : List Char → List Char → Bool
  | p, [] => p.isEmpty
  | p, s@(_ :: t) => p.isPrefixOf s || isSubStr p t

/-- Digits of a decimal literal to the natural number they denote. -/
def digitsToNat (l : List Char) : ℕ :=
  l.foldl (fun n c => 10 * n + (c.toNat - 48)) 0

def charsAllDigits (l : List Char) : Bool := l.all Char.isDigit

/-- Split a character list at its (at most one) decimal point; `none` when
more than one point is present. -/
def splitDot : List Char → Option (List Char × List Char)
  | [] => some ([], [])
  | c :: r =>
    if c = '.' then (if r.contains '.' then none else some ([], r))
    else
      match splitDot r with
      | some (a, b) => some (c :: a, b)
      | none => none

/-- Model of Python `float(s)` on plain decimal literals (optional sign,
digits, optional fractional part), the shapes the program feeds it. -/
def pyFloat (s : String) : Option ℚ :=
  let t := (pyStrip s).data
  let su : ℚ × List Char :=
    match t with
    | '-' :: r => (-1, r)
    | '+' :: r => (1, r)
    | r => (1, r)
  match splitDot su.2 with
  | none => none
  | some (a, b) =>
    if (a ++ b).isEmpty then none
    else if charsAllDigits a && charsAllDigits b then
      some (su.1 * ((digitsToNat (a ++ b) : ℚ) / 10 ^ b.length))
    else none

/-- Model of Python `int(s)` on decimal strings (optional sign, digits). -/
def pyInt (s : String) : Option ℤ :=
  let t := (pyStrip s).data
  let su : ℤ × List Char :=
    match t with
    | '-' :: r => (-1, r)
    | '+' :: r => (1, r)
    | r => (1, r)
  if su.2.isEmpty then none
  else if charsAllDigits su.2 then some (su.1 * (digitsToNat su.2 : ℤ))
  else none

/-! ## Data model: user profile and daily ledger -/

/-- The profile dict assembled by `prof_cal_goal` in `bot.py`
(keys `weight`, `height`, `age`, `activity_min`, `city`,
`calorie_goal_override`). -/
structure Profile where
  weight : ℚ
  height : ℚ
  age : ℤ
  activity_min : ℤ
  city : String
  calorie_goal_override : Option ℤ
deriving DecidableEq

/-- The per-day dict created by `ensure_day` in `bot.py`: accumulators plus
the append-only `foods` (name, grams, kcal) and `workouts`
(type, minutes, kcal burned) lists. -/
structure Ledger where
  water_ml : ℤ
  cal_in : ℚ
  cal_out : ℚ
  workout_extra_water_ml : ℤ
  foods : List (String × ℚ × ℚ)
  workouts : List (String × ℤ × ℤ)
deriving DecidableEq

/-- `ensure_day`'s fresh ledger: all accumulators zero, empty lists. -/
def initLedger : Ledger :=
  { water_ml := 0, cal_in := 0, cal_out := 0, workout_extra_water_ml := 0
    foods := [], workouts := [] }

/-! ## Goal calculator (`calc_water_goal_ml`, `calc_calorie_goal`,
`calc_burned_kcal` in `bot.py`) -/

/-- The heat term of `calc_water_goal_ml`: `1000` above 30 °C, `500` above
25 °C, otherwise `0`; an unavailable temperature (`None`) contributes 0. -/
def heatExtra (temp_c : Option ℚ) : ℤ :=
  match temp_c with
  | none => 0
  | some t => if t > 30 then 1000 else if t > 25 then 500 else 0

/-- `calc_water_goal_ml(profile, temp_c, workout_extra_ml)`:
`int(weight*30) + int((activity_min/30)*500) + heat_extra +
int(workout_extra_ml)` (the last `int()` is the identity on an integer). -/
def calc_water_goal_ml (p : Profile) (temp_c : Option ℚ)
    (workout_extra_ml : ℤ) : ℤ :=
  truncQ (p.weight * 30) + truncQ (((p.activity_min : ℚ) / 30) * 500)
    + heatExtra temp_c + workout_extra_ml

/-- `calc_calorie_goal(profile)`: `int(10*w + 6.25*h - 5*a +
(activity_min/30)*200)` (6.25 = 25/4), replaced by `int(override)` when the
override is set. -/
def calc_calorie_goal (p : Profile) : ℤ :=
  match p.calorie_goal_override with
  | some o => o
  | none =>
    truncQ (10 * p.weight + (25/4 : ℚ) * p.height - 5 * (p.age : ℚ)
      + ((p.activity_min : ℚ) / 30) * 200)

/-- The `MET` dict of `bot.py` as a total lookup with the
`MET.get(_, 6.0)` default (9.8 = 49/5, 3.5 = 7/2, 7.5 = 15/2). -/
def metOf (s : String) : ℚ :=
  if s = "бег" then 49/5
  else if s = "ходьба" then 7/2
  else if s = "велосипед" then 15/2
  else if s = "плавание" then 8
  else if s = "силовая" then 6
  else if s = "йога" then 3
  else 6

/-- `calc_burned_kcal(workout_type, minutes, weight)`:
`round(MET.get(workout_type.lower(), 6.0) * weight * (minutes/60))`. -/
def calc_burned_kcal (workout_type : String) (minutes : ℤ) (weight : ℚ) : ℤ :=
  pyRound (metOf (pyLower workout_type) * weight * ((minutes : ℚ) / 60))

/-! ## Food matcher (`get_food_kcal_100g` in `bot.py`).  The HTTP layer is
out of scope; the function is modelled on a successfully decoded response,
taking the provider's candidate list as an argument.  The failure paths of
the original (non-200 status, exception) return `None` before any of the
logic modelled here runs. -/

/-- One entry of the provider's `products` list, restricted to the four
fields the program reads. -/
structure Product where
  energy_kcal_100g : Option ℚ
  energy_100g : Option ℚ
  product_name : Option String
  generic_name : Option String
deriving DecidableEq

/-- Python `a or b` for an optional string: `None` and `""` fall through. -/
def orName (a : Option String) (b : String) : String :=
  match a with
  | some s => if s = "" then b else s
  | none => b

/-- `p.get("product_name") or p.get("generic_name") or "Продукт"`. -/
def prodName (p : Product) : String :=
  orName p.product_name (orName p.generic_name "Продукт")

/-- The energy extraction: `energy-kcal_100g` directly, else
`energy_100g / 4.184` (4.184 = 523/125), else the candidate is skipped. -/
def prodKcal (p : Product) : Option ℚ :=
  match p.energy_kcal_100g with
  | some k => some k
  | none =>
    match p.energy_100g with
    | some kj => some (kj / (523/125))
    | none => none

/-- `_norm(s)` in `bot.py`: keep alphanumerics and whitespace, lower-case,
strip. -/
def pyNorm (s : String) : String :=
  pyStrip ⟨(s.data.filter fun c => pyIsAlnum c || pyIsSpace c).map lowerChar⟩

/-- The candidate score: +3 when the (nonempty) normalized query is a
substring of the normalized name, +2 per nonempty whitespace token of the
normalized query that is a substring of the normalized name. -/
def scoreOf (qn nn : String) : ℕ :=
  (if !qn.data.isEmpty && isSubStr qn.data nn.data then 3 else 0)
    + 2 * ((pySplitWs qn).filter fun w => !w.data.isEmpty && isSubStr w.data nn.data).length

/-- The `(score, name, kcal)` tuple built per usable candidate. -/
structure Cand where
  score : ℕ
  name : String
  kcal : ℚ
deriving DecidableEq

/-- Candidates of the loop body, in provider order, skipping products with
no usable energy field. -/
def candsOf (query : String) (ps : List Product) : List Cand :=
  ps.filterMap fun p =>
    match prodKcal p with
    | none => none
    | some k =>
      some ⟨scoreOf (pyNorm query) (pyNorm (prodName p)), prodName p, k⟩

/-- The loop's update of `best`: replace only on a strictly greater score
(`if best is None or cand[0] > best[0]`). -/
def pickStep (best : Option Cand) (c : Cand) : Option Cand :=
  match best with
  | none => some c
  | some b => if c.score > b.score then some c else some b

/-- The full selection loop over the candidate list. -/
def pickBest (l : List Cand) : Option Cand := l.foldl pickStep none

/-- `get_food_kcal_100g(query)` on a decoded product list: the selected
candidate's name and kcal/100g, or `None`. -/
def get_food_kcal_100g (query : String) (ps : List Product) : Option (String × ℚ) :=
  (pickBest (candsOf query ps)).map fun c => (c.name, c.kcal)

/-- Recursive form of the selection loop once a first candidate is held. -/
def pb (b : Cand) : List Cand → Cand
  | [] => b
  | c :: l => if b.score < c.score then pb c l else pb b l

/-- Maximal score of a candidate list (0 when empty). -/
def bestScore : List Cand → ℕ
  | [] => 0
  | c :: l => max c.score (bestScore l)

/-! ## Profile-flow session engine (`ProfileFSM` handlers in `bot.py`) -/

/-- The six `ProfileFSM` states. -/
inductive PState
  | weight | height | age | activity | city | cal_goal
deriving DecidableEq

/-- Partially collected profile data held in the FSM context
(`state.update_data`). -/
structure PData where
  weight : Option ℚ := none
  height : Option ℚ := none
  age : Option ℤ := none
  activity_min : Option ℤ := none
  city : Option String := none
  calorie_goal_override : Option (Option ℤ) := none
deriving DecidableEq

/-- Outbound message of one profile-flow step: a prompt/re-prompt text, or
the completion report of `prof_cal_goal` (whose body is computed from the
committed profile and is modelled separately by the goal calculator). -/
inductive POut
  | ask (msg : String)
  | finish
deriving DecidableEq

/-- `prof_weight` validation: `float(text.replace(",", "."))`, range
(0, 400]. -/
def wVal (text : String) : Option ℚ :=
  match pyFloat (replaceComma text) with
  | some w => if w ≤ 0 ∨ w > 400 then none else some w
  | none => none

/-- `prof_height` validation: float, range (0, 260]. -/
def hVal (text : String) : Option ℚ :=
  match pyFloat (replaceComma text) with
  | some h => if h ≤ 0 ∨ h > 260 then none else some h
  | none => none

/-- `prof_age` validation: `int(text)`, range (0, 120]. -/
def aVal (text : String) : Option ℤ :=
  match pyInt text with
  | some a => if a ≤ 0 ∨ a > 120 then none else some a
  | none => none

/-- `prof_activity` validation: `int(text)`, range [0, 600]. -/
def mVal (text : String) : Option ℤ :=
  match pyInt text with
  | some m => if m < 0 ∨ m > 600 then none else some m
  | none => none

/-- `prof_city` validation: stripped text must be nonempty. -/
def cityVal (text : String) : Option String :=
  let c := pyStrip text
  if c = "" then none else some c

/-- `prof_cal_goal` validation: the literal `нет`/`no`/`n` (stripped,
lower-cased) means no override, otherwise `int(txt)` in [800, 6000]. -/
def calVal (text : String) : Option (Option ℤ) :=
  let txt := pyLower (pyStrip text)
  if txt = "нет" ∨ txt = "no" ∨ txt = "n" then some none
  else
    match pyInt txt with
    | some o => if o < 800 ∨ o > 6000 then none else some (some o)
    | none => none

/-- The next state of the fixed linear order; `none` after `cal_goal`
(session destroyed). -/
def nextPState : PState → Option PState
  | .weight => some .height
  | .height => some .age
  | .age => some .activity
  | .activity => some .city
  | .city => some .cal_goal
  | .cal_goal => none

/-- The re-prompt text each handler sends on validation failure. -/
def errMsg : PState → String
  | .weight => "Введите корректный вес (например 80)."
  | .height => "Введите корректный рост (например 184)."
  | .age => "Введите корректный возраст (например 26)."
  | .activity => "Введите корректное число минут (например 45)."
  | .city => "Введите город текстом."
  | .cal_goal => "Либо число (например 2500), либо \x27нет\x27."

/-- The output sent when a state's input is accepted: the next state's
prompt, or the completion report after `cal_goal`. -/
def okOut : PState → POut
  | .weight => .ask "Введите рост (см):"
  | .height => .ask "Введите возраст:"
  | .age => .ask "Минут активности в день:"
  | .activity => .ask "Город (для погоды):"
  | .city => .ask "Цель калорий вручную? Число или \x27нет\x27:"
  | .cal_goal => .finish

/-- One profile-flow step: the handler of the current state applied to one
message.  Returns the new state tag (`none` = session destroyed), the new
collected data and the outbound message. -/
def profStep (st : PState) (d : PData) (text : String) :
    Option PState × PData × POut :=
  match st with
  | .weight =>
    match wVal text with
    | none => (some .weight, d, .ask (errMsg .weight))
    | some w => (some .height, { d with weight := some w }, okOut .weight)
  | .height =>
    match hVal text with
    | none => (some .height, d, .ask (errMsg .height))
    | some h => (some .age, { d with height := some h }, okOut .height)
  | .age =>
    match aVal text with
    | none => (some .age, d, .ask (errMsg .age))
    | some a => (some .activity, { d with age := some a }, okOut .age)
  | .activity =>
    match mVal text with
    | none => (some .activity, d, .ask (errMsg .activity))
    | some m => (some .city, { d with activity_min := some m }, okOut .activity)
  | .city =>
    match cityVal text with
    | none => (some .city, d, .ask (errMsg .city))
    | some c => (some .cal_goal, { d with city := some c }, okOut .city)
  | .cal_goal =>
    match calVal text with
    | none => (some .cal_goal, d, .ask (errMsg .cal_goal))
    | some ov =>
      (none, { d with calorie_goal_override := some ov }, okOut .cal_goal)

/-- Whether a message passes the current state's validation. -/
def pValid (st : PState) (text : String) : Bool :=
  match st with
  | .weight => (wVal text).isSome
  | .height => (hVal text).isSome
  | .age => (aVal text).isSome
  | .activity => (mVal text).isSome
  | .city => (cityVal text).isSome
  | .cal_goal => (calVal text).isSome

/-! ## Per-user state and command handlers.  `users[uid]` is modelled per
user; `ensure_user`'s only effect is to materialize the default record
`{"profile": None, "days": {}}`, so the user record is modelled as a total
structure with those defaults.  `today_key()`, the temperature lookup and
the food lookup are inputs of the handlers (external collaborators). -/

/-- Food-flow session data (`FoodFSM` state plus `state.get_data()`). -/
inductive FoodSess
  | manualKcal (food_name : String)
  | grams (food_name : String) (kcal_100g : ℚ)
deriving DecidableEq

/-- An active conversation session for a user. -/
inductive Sess
  | prof (st : PState) (d : PData)
  | food (fs : FoodSess)
deriving DecidableEq

/-- The per-user slice of the global `users` dict plus the FSM storage. -/
structure UserState where
  profile : Option Profile := none
  days : List (String × Ledger) := []
  session : Option Sess := none
deriving DecidableEq

/-- Dict lookup on the per-day association list. -/
def lookD : List (String × Ledger) → String → Option Ledger
  | [], _ => none
  | (k, v) :: r, day => if k = day then some v else lookD r day

/-- `ensure_day`: create the day's fresh ledger when absent. -/
def ensure_day (ds : List (String × Ledger)) (day : String) :
    List (String × Ledger) :=
  match lookD ds day with
  | some _ => ds
  | none => (day, initLedger) :: ds

/-- In-place mutation of the day's ledger in the dict. -/
def updateDay : List (String × Ledger) → String → Ledger →
    List (String × Ledger)
  | [], day, d => [(day, d)]
  | (k, v) :: r, day, d =>
    if k = day then (day, d) :: r else (k, v) :: updateDay r day d

/-- The ledger the handlers read for a day (fresh when absent). -/
def dayLedger (u : UserState) (day : String) : Ledger :=
  (lookD u.days day).getD initLedger

/-- Outbound replies of the command handlers, with the computed values the
original interpolates into its message texts. -/
inductive Reply
  | needProfile
  | usageWater
  | badWaterAmount
  | waterLogged (drunk goal left : ℤ)
  | usageFood
  | foodNotFound
  | foodFound (food_name : String) (kcal_100g : ℚ)
  | badKcal
  | askGrams (food_name : String) (kcal_100g : ℚ)
  | badGrams
  | foodLogged (food_name : String) (grams kcal : ℚ)
  | usageWorkout
  | usageWorkout2
  | badMinutes
  | workoutLogged (wtype : String) (minutes burned extra : ℤ)
  | progress (temp : Option ℚ) (drunk goal left : ℤ)
      (calIn calOut balance : ℚ) (calGoal : ℤ) (calLeft : ℚ)
deriving DecidableEq

/-- Python truthiness test `not command.args`: absent or empty. -/
def argMissing (args : Option String) : Bool :=
  match args with
  | none => true
  | some s => s = ""

/-- `/log_water` handler (`log_water` in `bot.py`). -/
def log_water_h (u : UserState) (day : String) (temp : Option ℚ)
    (args : Option String) : UserState × Reply :=
  match u.profile with
  | none => (u, .needProfile)
  | some p =>
    if argMissing args then (u, .usageWater)
    else
      match pyInt (args.getD "") with
      | some ml =>
        if ml ≤ 0 ∨ ml > 5000 then (u, .badWaterAmount)
        else
          let ds := ensure_day u.days day
          let d := (lookD ds day).getD initLedger
          let d' := { d with water_ml := d.water_ml + ml }
          let goal := calc_water_goal_ml p temp d'.workout_extra_water_ml
          ({ u with days := updateDay ds day d' },
            .waterLogged d'.water_ml goal (max 0 (goal - d'.water_ml)))
      | none => (u, .badWaterAmount)

/-- `/log_food` handler (`log_food` in `bot.py`); `ps` is the provider's
candidate list for the query. -/
def log_food_h (u : UserState) (args : Option String) (ps : List Product) :
    UserState × Reply :=
  match u.profile with
  | none => (u, .needProfile)
  | some _ =>
    if argMissing args then (u, .usageFood)
    else
      match get_food_kcal_100g (pyStrip (args.getD "")) ps with
      | none =>
        ({ u with session := some (.food (.manualKcal (pyStrip (args.getD "")))) },
          .foodNotFound)
      | some (n, k) =>
        ({ u with session := some (.food (.grams n k)) }, .foodFound n k)

/-- `FoodFSM.manual_kcal_100g` handler (`food_manual_kcal`); `food_name`
is the session's stored query. -/
def food_manual_kcal_h (u : UserState) (food_name : String) (text : String) :
    UserState × Reply :=
  match pyFloat (replaceComma text) with
  | some k =>
    if k < 0 ∨ k > 2000 then (u, .badKcal)
    else
      ({ u with session := some (.food (.grams food_name k)) },
        .askGrams food_name k)
  | none => (u, .badKcal)

/-- `FoodFSM.grams` handler (`food_grams`); `food_name` and `kcal_100g`
are the session's stored data. -/
def food_grams_h (u : UserState) (day : String) (food_name : String)
    (kcal_100g : ℚ) (text : String) : UserState × Reply :=
  match u.profile with
  | none => ({ u with session := none }, .needProfile)
  | some _ =>
    match pyFloat (replaceComma text) with
    | some grams =>
      if grams ≤ 0 ∨ grams > 5000 then (u, .badGrams)
      else
        let kcal := kcal_100g * grams / 100
        let ds := ensure_day u.days day
        let d := (lookD ds day).getD initLedger
        let d' := { d with cal_in := d.cal_in + kcal
                           foods := d.foods ++ [(food_name, grams, kcal)] }
        ({ u with days := updateDay ds day d', session := none },
          .foodLogged food_name grams kcal)
    | none => (u, .badGrams)

/-- `/log_workout` handler (`log_workout` in `bot.py`). -/
def log_workout_h (u : UserState) (day : String) (args : Option String) :
    UserState × Reply :=
  match u.profile with
  | none => (u, .needProfile)
  | some p =>
    if argMissing args then (u, .usageWorkout)
    else
      if (pySplitWs (args.getD "")).length < 2 then (u, .usageWorkout2)
      else
        match pyInt ((pySplitWs (args.getD "")).getLastD "") with
        | some minutes =>
          if minutes ≤ 0 ∨ minutes > 600 then (u, .badMinutes)
          else
            let wt := pyStrip (String.intercalate " "
              (pySplitWs (args.getD "")).dropLast)
            let burned := calc_burned_kcal wt minutes p.weight
            let extra := truncQ (((minutes : ℚ) / 30) * 200)
            let ds := ensure_day u.days day
            let d := (lookD ds day).getD initLedger
            let d' := { d with
              cal_out := d.cal_out + (burned : ℚ)
              workout_extra_water_ml := d.workout_extra_water_ml + extra
              workouts := d.workouts ++ [(wt, minutes, burned)] }
            ({ u with days := updateDay ds day d' },
              .workoutLogged wt minutes burned extra)
        | none => (u, .badMinutes)

/-- `/check_progress` handler (`check_progress` in `bot.py`). -/
def check_progress_h (u : UserState) (day : String) (temp : Option ℚ) :
    UserState × Reply :=
  match u.profile with
  | none => (u, .needProfile)
  | some p =>
    let ds := ensure_day u.days day
    let d := (lookD ds day).getD initLedger
    let water_goal := calc_water_goal_ml p temp d.workout_extra_water_ml
    let cal_goal := calc_calorie_goal p
    ({ u with days := ds },
      .progress temp d.water_ml water_goal (max 0 (water_goal - d.water_ml))
        d.cal_in d.cal_out (d.cal_in - d.cal_out) cal_goal
        ((cal_goal : ℚ) - (d.cal_in - d.cal_out)))

/-- One accepted-or-rejected interaction that can touch a ledger, with the
external inputs (day key, temperature, provider response, session data)
made explicit. -/
inductive Act
  | water (day : String) (temp : Option ℚ) (args : Option String)
  | food (args : Option String) (ps : List Product)
  | manualKcal (food_name : String) (text : String)
  | foodGrams (day : String) (food_name : String) (kcal_100g : ℚ)
      (text : String)
  | workout (day : String) (args : Option String)
  | progress (day : String) (temp : Option ℚ)

/-- State effect of one interaction. -/
def applyAct (u : UserState) : Act → UserState
  | .water day temp args => (log_water_h u day temp args).1
  | .food args ps => (log_food_h u args ps).1
  | .manualKcal n text => (food_manual_kcal_h u n text).1
  | .foodGrams day n k text => (food_grams_h u day n k text).1
  | .workout day args => (log_workout_h u day args).1
  | .progress day temp => (check_progress_h u day temp).1

/-- State after a sequence of interactions. -/
def runActs (u : UserState) (l : List Act) : UserState := l.foldl applyAct u

/-- Componentwise order on the four ledger accumulators. -/
def accLE (d d' : Ledger) : Prop :=
  d.water_ml ≤ d'.water_ml ∧ d.cal_in ≤ d'.cal_in ∧ d.cal_out ≤ d'.cal_out
    ∧ d.workout_extra_water_ml ≤ d'.workout_extra_water_ml

/-- All four accumulators non-negative. -/
def ledNonneg (d : Ledger) : Prop :=
  0 ≤ d.water_ml ∧ 0 ≤ d.cal_in ∧ 0 ≤ d.cal_out
    ∧ 0 ≤ d.workout_extra_water_ml

/-- Agreement of the aggregate accumulators with the event lists:
`cal_in` sums the foods' kcal, `cal_out` sums the workouts' burned kcal,
and `workout_extra_water_ml` sums `int((minutes/30)*200)` over the
workouts. -/
def LInv (d : Ledger) : Prop :=
  d.cal_in = (d.foods.map fun f => f.2.2).sum
    ∧ d.cal_out = (d.workouts.map fun w => (w.2.2 : ℚ)).sum
    ∧ d.workout_extra_water_ml
        = (d.workouts.map fun w => truncQ ((w.2.1 : ℚ) / 30 * 200)).sum

/-- `LInv` for every ledger of the user's day dict. -/
def InvAll (u : UserState) : Prop := ∀ kv ∈ u.days, LInv kv.2

/-- Order on optional temperatures for the monotonicity claim: an unknown
temperature sits below every known one. -/
def optTempLE : Option ℚ → Option ℚ → Prop
  | none, _ => True
  | some _, none => False
  | some a, some b => a ≤ b

/-! ## Helper lemmas -/

theorem truncQ_eq_floor {q : ℚ} (h : 0 ≤ q) : truncQ q = ⌊q⌋ := by
  unfold truncQ
  rcases lt_or_ge q 0 with h' | h'
  · exact absurd h (not_le.mpr h')
  · simp [not_lt.mpr h']

theorem truncQ_mono {a b : ℚ} (h : a ≤ b) : truncQ a ≤ truncQ b := by
  unfold truncQ
  split
  · rename_i ha
    split
    · rename_i hb
      have : ⌊-b⌋ ≤ ⌊-a⌋ := Int.floor_le_floor (by linarith)
      omega
    · rename_i hb
      have h1 : (0:ℤ) ≤ ⌊-a⌋ := Int.floor_nonneg.mpr (by linarith)
      have h2 : (0:ℤ) ≤ ⌊b⌋ := Int.floor_nonneg.mpr (by linarith)
      omega
  · rename_i ha
    split
    · rename_i hb
      exact absurd (lt_of_le_of_lt h hb) ha
    · exact Int.floor_le_floor h

theorem heatExtra_nonneg (t : Option ℚ) : 0 ≤ heatExtra t := by
  cases t with
  | none => simp [heatExtra]
  | some x =>
    simp only [heatExtra]
    split_ifs <;> norm_num

theorem heatExtra_mono {t₁ t₂ : Option ℚ} (h : optTempLE t₁ t₂) :
    heatExtra t₁ ≤ heatExtra t₂ := by
  cases t₁ with
  | none => exact heatExtra_nonneg t₂
  | some a =>
    cases t₂ with
    | none => exact absurd h (by simp [optTempLE])
    | some b =>
      have hab : a ≤ b := h
      simp only [heatExtra]
      split_ifs <;> linarith

/-! ## C1: the water-goal formula -/

/-- C1: for a profile with weight in (0, 400] and activity minutes in
[0, 600], any optional temperature and any non-negative workout extra,
`water_goal_ml` is `floor(weight*30) + floor((activity/30)*500) +
heat_extra + workout_extra`, with `heat_extra` 1000 above 30 °C, 500 in
(25, 30], and 0 at or below 25 °C or with no temperature; in particular
weight 80, activity 45, no temperature, no extra gives 3150. -/
theorem c1_water_goal_formula (w h : ℚ) (a m : ℤ) (city : String)
    (ov : Option ℤ) (t : Option ℚ) (extra : ℤ)
    (hw0 : 0 < w) (hw1 : w ≤ 400) (hm0 : 0 ≤ m) (hm1 : m ≤ 600)
    (hex : 0 ≤ extra) :
    calc_water_goal_ml ⟨w, h, a, m, city, ov⟩ t extra
        = ⌊w * 30⌋ + ⌊((m : ℚ) / 30) * 500⌋
          + (match t with
             | none => 0
             | some x =>
               if 30 < x then 1000 else if 25 < x ∧ x ≤ 30 then 500 else 0)
          + extra
      ∧ calc_water_goal_ml ⟨80, 184, 26, 45, "X", none⟩ none 0 = 3150 := by
  constructor
  · have hm0' : (0 : ℚ) ≤ (m : ℚ) := by exact_mod_cast hm0
    unfold calc_water_goal_ml
    rw [truncQ_eq_floor (by positivity), truncQ_eq_floor (by positivity)]
    have : heatExtra t
        = (match t with
           | none => 0
           | some x =>
             if 30 < x then 1000 else if 25 < x ∧ x ≤ 30 then 500 else 0) := by
      cases t with
      | none => rfl
      | some x =>
        simp only [heatExtra]
        by_cases h30 : 30 < x
        · simp [h30]
        · by_cases h25 : 25 < x
          · simp [h30, h25, not_lt.mp h30]
          · simp [h30, h25]
    rw [this]
  · norm_num [calc_water_goal_ml, truncQ, heatExtra]

/-- Witness for C1 at the concrete end-to-end profile. -/
theorem c1_water_goal_formula_witness :
    calc_water_goal_ml ⟨80, 184, 26, 45, "X", none⟩ none 0 = 3150 :=
  (c1_water_goal_formula 80 184 26 45 "X" none none 0 (by norm_num)
    (by norm_num) (by norm_num) (by norm_num) (by norm_num)).2

/-! ## C2: the calorie-goal formula.  The original converts with Python
`int()`, which truncates toward zero, while the claim says `floor`; the two
differ on valid profiles whose formula value is negative and fractional
(e.g. weight 1 kg, height 1 cm, age 120, activity 0). -/

/-- C2 counterexample: at the valid profile weight 1, height 1, age 120,
activity 0 with no override, the code returns −583 (truncation toward
zero) while the claimed `floor` of the formula value −583.75 is −584. -/
theorem c2_calorie_goal_counterexample :
    calc_calorie_goal ⟨1, 1, 120, 0, "X", none⟩
      ≠ ⌊10 * (1 : ℚ) + 25/4 * 1 - 5 * 120 + ((0 : ℤ) : ℚ) / 30 * 200⌋ := by
  norm_num [calc_calorie_goal, truncQ]

/-- C2 amended: `calorie_goal` returns the truncation toward zero of
`10*weight + 6.25*height - 5*age + (activity/30)*200` when the override is
unset (this equals the claimed floor whenever the value is non-negative),
and returns exactly the override whenever it is set, regardless of all
other fields; weight 80, height 184, age 26, activity 45 and no override
give 2120, and any profile with override 2200 gives 2200. -/
theorem c2_calorie_goal_amended (p : Profile) :
    (p.calorie_goal_override = none →
      calc_calorie_goal p
        = truncQ (10 * p.weight + 25/4 * p.height - 5 * (p.age : ℚ)
            + (p.activity_min : ℚ) / 30 * 200))
    ∧ (∀ o : ℤ, p.calorie_goal_override = some o → calc_calorie_goal p = o)
    ∧ (∀ q : ℚ, 0 ≤ q → truncQ q = ⌊q⌋)
    ∧ calc_calorie_goal ⟨80, 184, 26, 45, "X", none⟩ = 2120
    ∧ (∀ q : Profile, q.calorie_goal_override = some 2200 →
        calc_calorie_goal q = 2200) := by
  refine ⟨?_, ?_, fun q hq => truncQ_eq_floor hq, ?_, ?_⟩
  · intro hov
    simp only [calc_calorie_goal, hov]
  · intro o hov
    simp [calc_calorie_goal, hov]
  · norm_num [calc_calorie_goal, truncQ]
  · intro q hov
    simp [calc_calorie_goal, hov]

/-- Witness for C2 (amended): the override branch at a concrete profile. -/
theorem c2_calorie_goal_amended_witness :
    calc_calorie_goal ⟨80, 184, 26, 45, "X", some 2200⟩ = 2200 :=
  (c2_calorie_goal_amended ⟨80, 184, 26, 45, "X", some 2200⟩).2.1 2200 rfl

/-! ## C3: calories burned per workout -/

/-- C3: `calories_burned` looks its MET coefficient up by case-insensitive
exact match (so it is invariant under changing the case of the type
string), uses the fixed table running/бег 9.8, walking/ходьба 3.5,
cycling/велосипед 7.5, swimming/плавание 8.0, strength/силовая 6.0,
yoga/йога 3.0, defaults to 6.0 on any other type, and returns
`round(MET * weight * minutes/60)`; in particular both `бег` and `БЕГ`
at 30 minutes and 80 kg give 392. -/
theorem c3_calories_burned (s t : String) (m : ℤ) (w : ℚ)
    (hcase : pyLower s = pyLower t) :
    calc_burned_kcal s m w = calc_burned_kcal t m w
    ∧ (∀ (s' : String) (m' : ℤ) (w' : ℚ),
        calc_burned_kcal s' m' w'
          = pyRound (metOf (pyLower s') * w' * ((m' : ℚ) / 60)))
    ∧ metOf "бег" = 49/5 ∧ metOf "ходьба" = 7/2 ∧ metOf "велосипед" = 15/2
    ∧ metOf "плавание" = 8 ∧ metOf "силовая" = 6 ∧ metOf "йога" = 3
    ∧ (∀ s' : String, s' ≠ "бег" → s' ≠ "ходьба" → s' ≠ "велосипед" →
        s' ≠ "плавание" → s' ≠ "силовая" → s' ≠ "йога" → metOf s' = 6)
    ∧ calc_burned_kcal "бег" 30 80 = 392
    ∧ calc_burned_kcal "БЕГ" 30 80 = 392 := by
  have hb : calc_burned_kcal "бег" 30 80 = 392 := by
    rw [calc_burned_kcal, show pyLower "бег" = "бег" from by decide]
    rw [show metOf "бег" = 49/5 from by simp +decide [metOf]]
    norm_num [pyRound]
  refine ⟨by rw [calc_burned_kcal, hcase, calc_burned_kcal],
    fun s' m' w' => rfl, by simp +decide [metOf], by simp +decide [metOf],
    by simp +decide [metOf], by simp +decide [metOf], by simp +decide [metOf],
    by simp +decide [metOf], ?_, hb, ?_⟩
  · intro s' h1 h2 h3 h4 h5 h6
    simp [metOf, h1, h2, h3, h4, h5, h6]
  · rw [calc_burned_kcal, show pyLower "БЕГ" = "бег" from by decide]
    rw [show metOf "бег" = 49/5 from by simp +decide [metOf]]
    norm_num [pyRound]

/-- Witness for C3: the two case variants agree and equal 392. -/
theorem c3_calories_burned_witness :
    calc_burned_kcal "БЕГ" 30 80 = calc_burned_kcal "бег" 30 80 :=
  (c3_calories_burned "БЕГ" "бег" 30 80 (by decide)).1

/-! ## C7: monotonicity of the water goal -/

/-- C7: on valid inputs, `water_goal_ml` is monotonically non-decreasing
separately in weight, activity minutes, temperature (an unknown
temperature below every known one) and workout extra water, the other
inputs held fixed. -/
theorem c7_water_goal_monotone :
    (∀ (p : Profile) (t : Option ℚ) (e : ℤ) (w₁ w₂ : ℚ),
        0 < w₁ → w₁ ≤ w₂ → w₂ ≤ 400 →
        calc_water_goal_ml { p with weight := w₁ } t e
          ≤ calc_water_goal_ml { p with weight := w₂ } t e)
    ∧ (∀ (p : Profile) (t : Option ℚ) (e : ℤ) (m₁ m₂ : ℤ),
        0 ≤ m₁ → m₁ ≤ m₂ → m₂ ≤ 600 →
        calc_water_goal_ml { p with activity_min := m₁ } t e
          ≤ calc_water_goal_ml { p with activity_min := m₂ } t e)
    ∧ (∀ (p : Profile) (e : ℤ) (t₁ t₂ : Option ℚ),
        optTempLE t₁ t₂ →
        calc_water_goal_ml p t₁ e ≤ calc_water_goal_ml p t₂ e)
    ∧ (∀ (p : Profile) (t : Option ℚ) (e₁ e₂ : ℤ),
        e₁ ≤ e₂ →
        calc_water_goal_ml p t e₁ ≤ calc_water_goal_ml p t e₂) := by
  refine ⟨?_, ?_, ?_, ?_⟩
  · intro p t e w₁ w₂ h0 h12 h4
    unfold calc_water_goal_ml
    dsimp only
    have : truncQ (w₁ * 30) ≤ truncQ (w₂ * 30) :=
      truncQ_mono (by nlinarith)
    omega
  · intro p t e m₁ m₂ h0 h12 h6
    unfold calc_water_goal_ml
    dsimp only
    have hc : ((m₁ : ℚ) / 30) * 500 ≤ ((m₂ : ℚ) / 30) * 500 := by
      have : (m₁ : ℚ) ≤ (m₂ : ℚ) := by exact_mod_cast h12
      nlinarith
    have := truncQ_mono hc
    omega
  · intro p e t₁ t₂ ht
    unfold calc_water_goal_ml
    have := heatExtra_mono ht
    omega
  · intro p t e₁ e₂ he
    unfold calc_water_goal_ml
    omega

/-- Witness for C7: all four parts at concrete valid inputs. -/
theorem c7_water_goal_monotone_witness :
    calc_water_goal_ml ⟨70, 170, 30, 30, "X", none⟩ none 0
        ≤ calc_water_goal_ml ⟨80, 170, 30, 30, "X", none⟩ none 0
      ∧ calc_water_goal_ml ⟨70, 170, 30, 30, "X", none⟩ none 0
        ≤ calc_water_goal_ml ⟨70, 170, 30, 60, "X", none⟩ none 0
      ∧ calc_water_goal_ml ⟨70, 170, 30, 30, "X", none⟩ none 0
        ≤ calc_water_goal_ml ⟨70, 170, 30, 30, "X", none⟩ (some 31) 0
      ∧ calc_water_goal_ml ⟨70, 170, 30, 30, "X", none⟩ none 0
        ≤ calc_water_goal_ml ⟨70, 170, 30, 30, "X", none⟩ none 200 :=
  ⟨c7_water_goal_monotone.1 ⟨70, 170, 30, 30, "X", none⟩ none 0 70 80
      (by norm_num) (by norm_num) (by norm_num),
    c7_water_goal_monotone.2.1 ⟨70, 170, 30, 30, "X", none⟩ none 0 30 60
      (by norm_num) (by norm_num) (by norm_num),
    c7_water_goal_monotone.2.2.1 ⟨70, 170, 30, 30, "X", none⟩ 0 none (some 31)
      trivial,
    c7_water_goal_monotone.2.2.2 ⟨70, 170, 30, 30, "X", none⟩ none 0 200
      (by norm_num)⟩

/-! ## Food-matcher selection lemmas -/

theorem foldl_pickStep_some (l : List Cand) : ∀ b : Cand,
    l.foldl pickStep (some b) = some (pb b l) := by
  induction l with
  | nil => intro b; rfl
  | cons c t ih =>
    intro b
    by_cases h : b.score < c.score
    · simp only [List.foldl_cons, pickStep, pb, if_pos h, gt_iff_lt]
      exact ih c
    · simp only [List.foldl_cons, pickStep, pb, if_neg h, gt_iff_lt]
      exact ih b

theorem pickBest_cons (c : Cand) (t : List Cand) :
    pickBest (c :: t) = some (pb c t) := by
  simp only [pickBest, List.foldl_cons, pickStep]
  exact foldl_pickStep_some t c

theorem pb_mem (l : List Cand) : ∀ b : Cand, pb b l ∈ b :: l := by
  induction l with
  | nil => intro b; exact List.mem_singleton.mpr rfl
  | cons c t ih =>
    intro b
    by_cases h : b.score < c.score
    · simp only [pb, if_pos h]
      exact List.mem_cons_of_mem b (ih c)
    · simp only [pb, if_neg h]
      rcases List.mem_cons.mp (ih b) with h' | h'
      · rw [h']; exact List.mem_cons_self _ _
      · exact List.mem_cons_of_mem b (List.mem_cons_of_mem c h')

theorem find?_pb (t : List Cand) : ∀ b : Cand,
    (b :: t).find? (fun c => decide (bestScore (b :: t) ≤ c.score))
      = some (pb b t) := by
  induction t with
  | nil =>
    intro b
    rw [List.find?_cons_of_pos _ (by simp [bestScore])]
    rfl
  | cons c t ih =>
    intro b
    by_cases h : b.score < c.score
    · have hM : bestScore (b :: c :: t) = bestScore (c :: t) := by
        simp only [bestScore]; omega
      have hpb : decide (bestScore (b :: c :: t) ≤ b.score) = false := by
        simp only [bestScore, decide_eq_false_iff_not, not_le]; omega
      rw [List.find?_cons_of_neg _ (by simp [hpb])]
      simp only [hM]
      rw [ih c]
      simp [pb, h]
    · have hM : bestScore (b :: c :: t) = bestScore (b :: t) := by
        simp only [bestScore]; omega
      have hpb : pb b (c :: t) = pb b t := by simp [pb, h]
      rw [hpb, ← ih b]
      by_cases hb : bestScore (b :: t) ≤ b.score
      · rw [List.find?_cons_of_pos _ (by simp [hM, hb]),
          List.find?_cons_of_pos _ (by simp [hb])]
      · have hc : ¬ bestScore (b :: c :: t) ≤ c.score := by
          simp only [bestScore] at *; omega
        rw [List.find?_cons_of_neg _ (by simp [hM, hb]),
          List.find?_cons_of_neg _ (by simp [hc]),
          List.find?_cons_of_neg _ (by simp [hb])]
        simp only [hM]

/-! ## C4: tie-break of the food matcher -/

/-- C4: when two or more usable candidates attain the maximal score, the
selected candidate is the first of the provider-ordered usable-candidate
list whose score reaches the maximum, i.e. the earliest tied candidate. -/
theorem c4_tie_break (q : String) (ps : List Product)
    (h2 : 2 ≤ (candsOf q ps).countP
        (fun c => decide (c.score = bestScore (candsOf q ps)))) :
    get_food_kcal_100g q ps
      = ((candsOf q ps).find?
            (fun c => decide (bestScore (candsOf q ps) ≤ c.score))).map
          (fun c => (c.name, c.kcal)) := by
  cases hc : candsOf q ps with
  | nil => rw [hc] at h2; simp at h2
  | cons c t =>
    unfold get_food_kcal_100g
    rw [hc, pickBest_cons, find?_pb]

/-- Witness for C4: two tied usable candidates; the first is selected. -/
theorem c4_tie_break_witness :
    2 ≤ (candsOf "aa" [⟨some 1, none, some "aa", none⟩,
            ⟨some 2, none, some "aa", none⟩]).countP
          (fun c => decide (c.score = bestScore (candsOf "aa"
            [⟨some 1, none, some "aa", none⟩,
             ⟨some 2, none, some "aa", none⟩])))
    ∧ get_food_kcal_100g "aa" [⟨some 1, none, some "aa", none⟩,
        ⟨some 2, none, some "aa", none⟩] = some ("aa", 1) :=
  ⟨by decide,
    (c4_tie_break "aa" [⟨some 1, none, some "aa", none⟩,
      ⟨some 2, none, some "aa", none⟩] (by decide)).trans (by decide)⟩

/-! ## C5: the no-match outcome.  The claim that an all-zero-score
candidate list yields "no match" is false on the code: the loop starts
with `best is None`, so the first usable candidate is installed even with
score 0 and is returned. -/

/-- C5 counterexample: for query `xyz` and a single usable candidate named
`abc` (kcal 100), every candidate scores 0 against the query, yet the
matcher returns that candidate rather than `None`. -/
theorem c5_no_match_counterexample :
    (candsOf "xyz" [⟨some 100, none, some "abc", none⟩]).map Cand.score = [0]
    ∧ get_food_kcal_100g "xyz" [⟨some 100, none, some "abc", none⟩]
        = some ("abc", 100) := by
  constructor
  · decide
  · decide

/-- C5 amended: the matcher returns `None` exactly when no candidate
carries a usable energy field (so, in particular, for an empty candidate
list); candidates lacking both the kilocalorie and the kilojoule field are
skipped and never selected — any returned result is one of the usable
candidates.  A zero score does not disqualify a candidate. -/
theorem c5_no_match_amended (q : String) (ps : List Product) :
    (get_food_kcal_100g q ps = none ↔ candsOf q ps = [])
    ∧ (∀ n k, get_food_kcal_100g q ps = some (n, k) →
        ∃ c ∈ candsOf q ps, c.name = n ∧ c.kcal = k) := by
  constructor
  · cases hc : candsOf q ps with
    | nil => simp [get_food_kcal_100g, hc, pickBest]
    | cons c t => simp [get_food_kcal_100g, hc, pickBest_cons]
  · intro n k hk
    unfold get_food_kcal_100g at hk
    cases hc : candsOf q ps with
    | nil => rw [hc] at hk; simp [pickBest] at hk
    | cons c t =>
      rw [hc, pickBest_cons] at hk
      have h1 : (pb c t).name = n ∧ (pb c t).kcal = k := by simpa using hk
      exact ⟨pb c t, hc ▸ pb_mem t c, h1.1, h1.2⟩

/-- Witness for C5 (amended): an empty candidate list yields `None`. -/
theorem c5_no_match_amended_witness :
    get_food_kcal_100g "банан" [] = none :=
  (c5_no_match_amended "банан" []).1.mpr rfl

/-! ## Day-dict lemmas -/

theorem accLE_refl (d : Ledger) : accLE d d :=
  ⟨le_refl _, le_refl _, le_refl _, le_refl _⟩

theorem lookD_ensure (ds : List (String × Ledger)) (day : String) :
    lookD (ensure_day ds day) day = some ((lookD ds day).getD initLedger) := by
  unfold ensure_day
  cases h : lookD ds day with
  | some d => simp [h]
  | none => simp [lookD, h]

theorem lookD_update (ds : List (String × Ledger)) (day : String) (d : Ledger) :
    lookD (updateDay ds day d) day = some d := by
  induction ds with
  | nil => simp [updateDay, lookD]
  | cons kv r ih =>
    obtain ⟨k, v⟩ := kv
    by_cases h : k = day
    · simp [updateDay, h, lookD]
    · simp [updateDay, h, lookD, ih]

theorem mem_updateDay {ds : List (String × Ledger)} {day : String}
    {d : Ledger} {kv : String × Ledger} (h : kv ∈ updateDay ds day d) :
    kv.2 = d ∨ kv ∈ ds := by
  induction ds with
  | nil =>
    simp only [updateDay, List.mem_singleton] at h
    exact Or.inl (by rw [h])
  | cons kv' r ih =>
    obtain ⟨k, v⟩ := kv'
    by_cases hk : k = day
    · simp only [updateDay, if_pos hk, List.mem_cons] at h
      rcases h with h | h
      · exact Or.inl (by rw [h])
      · exact Or.inr (List.mem_cons_of_mem _ h)
    · simp only [updateDay, if_neg hk, List.mem_cons] at h
      rcases h with h | h
      · exact Or.inr (by rw [h]; exact List.mem_cons_self _ _)
      · rcases ih h with h' | h'
        · exact Or.inl h'
        · exact Or.inr (List.mem_cons_of_mem _ h')

theorem mem_ensure_day {ds : List (String × Ledger)} {day : String}
    {kv : String × Ledger} (h : kv ∈ ensure_day ds day) :
    kv.2 = initLedger ∨ kv ∈ ds := by
  unfold ensure_day at h
  cases hl : lookD ds day with
  | some d => rw [hl] at h; exact Or.inr h
  | none =>
    rw [hl] at h
    rcases List.mem_cons.mp h with h' | h'
    · exact Or.inl (by rw [h'])
    · exact Or.inr h'

theorem truncQ_nonneg {q : ℚ} (h : 0 ≤ q) : 0 ≤ truncQ q := by
  rw [truncQ_eq_floor h]
  exact Int.floor_nonneg.mpr h

theorem metOf_nonneg (s : String) : 0 ≤ metOf s := by
  unfold metOf
  split_ifs <;> norm_num

theorem pyRound_nonneg {q : ℚ} (h : 0 ≤ q) : 0 ≤ pyRound q := by
  have hf : (0:ℤ) ≤ ⌊q⌋ := Int.floor_nonneg.mpr h
  unfold pyRound
  split_ifs <;> omega

theorem calc_burned_kcal_nonneg (s : String) (m : ℤ) (w : ℚ)
    (hm : 0 ≤ m) (hw : 0 ≤ w) : 0 ≤ calc_burned_kcal s m w := by
  unfold calc_burned_kcal
  refine pyRound_nonneg ?_
  have hm' : (0:ℚ) ≤ (m : ℚ) := by exact_mod_cast hm
  have := metOf_nonneg (pyLower s)
  positivity

/-- The weight stored in an installed profile is positive (onboarding
validates 0 < weight ≤ 400 before a profile can exist). -/
def profWeightPos (u : UserState) : Prop :=
  ∀ p, u.profile = some p → 0 < p.weight

/-! ## C6: accumulators never decrease -/

/-- C6: every single invocation of the water-, food- and workout-logging
handlers leaves each of the four accumulators of the day's ledger at or
above its previous value (the food kcal-per-100g being non-negative as the
manual-entry validation enforces and the provider interface supplies, and
the installed profile's weight positive as onboarding enforces); a fresh
ledger is non-negative and the componentwise order preserves
non-negativity, so along any sequence of operations all four accumulators
are monotonically non-decreasing and stay ≥ 0. -/
theorem c6_accumulators_monotone :
    (∀ (u : UserState) (day : String) (temp : Option ℚ) (args : Option String),
        accLE (dayLedger u day) (dayLedger ((log_water_h u day temp args).1) day))
    ∧ (∀ (u : UserState) (day food_name text : String) (kcal_100g : ℚ),
        0 ≤ kcal_100g →
        accLE (dayLedger u day)
          (dayLedger ((food_grams_h u day food_name kcal_100g text).1) day))
    ∧ (∀ (u : UserState) (day : String) (args : Option String),
        profWeightPos u →
        accLE (dayLedger u day) (dayLedger ((log_workout_h u day args).1) day))
    ∧ ledNonneg initLedger
    ∧ (∀ d d' : Ledger, ledNonneg d → accLE d d' → ledNonneg d') := by
  refine ⟨?_, ?_, ?_, ?_, ?_⟩
  · intro u day temp args
    unfold log_water_h
    split
    · exact accLE_refl _
    · split
      · exact accLE_refl _
      · split
        · rename_i ml _
          split
          · exact accLE_refl _
          · rename_i hr
            push_neg at hr
            simp only [dayLedger, lookD_update, lookD_ensure, Option.getD_some,
              accLE]
            refine ⟨?_, le_refl _, le_refl _, le_refl _⟩
            dsimp only
            omega
        · exact accLE_refl _
  · intro u day food_name text kcal_100g hk
    unfold food_grams_h
    split
    · exact accLE_refl _
    · split
      · rename_i grams _
        split
        · exact accLE_refl _
        · rename_i hr
          push_neg at hr
          simp only [dayLedger, lookD_update, lookD_ensure, Option.getD_some,
            accLE]
          refine ⟨le_refl _, ?_, le_refl _, le_refl _⟩
          dsimp only
          have h0 : 0 ≤ kcal_100g * grams / 100 :=
            div_nonneg (mul_nonneg hk (le_of_lt hr.1)) (by norm_num)
          linarith
      · exact accLE_refl _
  · intro u day args hw
    unfold log_workout_h
    split
    · exact accLE_refl _
    · rename_i p hp
      have hwp : 0 < p.weight := hw p hp
      split
      · exact accLE_refl _
      · split
        · exact accLE_refl _
        · split
          · rename_i minutes _
            split
            · exact accLE_refl _
            · rename_i hr
              push_neg at hr
              simp only [dayLedger, lookD_update, lookD_ensure, Option.getD_some,
                accLE]
              refine ⟨le_refl _, le_refl _, ?_, ?_⟩ <;> dsimp only
              · have h0 : 0 ≤ calc_burned_kcal
                    (pyStrip (String.intercalate " "
                      (pySplitWs (args.getD "")).dropLast)) minutes p.weight :=
                  calc_burned_kcal_nonneg _ _ _ (le_of_lt hr.1) (le_of_lt hwp)
                have h0' : (0:ℚ) ≤ ((calc_burned_kcal
                    (pyStrip (String.intercalate " "
                      (pySplitWs (args.getD "")).dropLast)) minutes p.weight : ℤ) : ℚ) := by
                  exact_mod_cast h0
                linarith
              · have hm' : (0:ℚ) ≤ (minutes : ℚ) := by
                  have := le_of_lt hr.1
                  exact_mod_cast this
                have h0 : 0 ≤ truncQ (((minutes : ℚ) / 30) * 200) :=
                  truncQ_nonneg (by positivity)
                omega
          · exact accLE_refl _
  · exact ⟨le_refl _, le_refl _, le_refl _, le_refl _⟩
  · intro d d' hn hle
    exact ⟨le_trans hn.1 hle.1, le_trans hn.2.1 hle.2.1,
      le_trans hn.2.2.1 hle.2.2.1, le_trans hn.2.2.2 hle.2.2.2⟩

/-- Witness for C6: concrete instances of all five parts. -/
theorem c6_accumulators_monotone_witness :
    accLE (dayLedger ⟨some ⟨80, 184, 26, 45, "X", none⟩, [], none⟩ "d")
      (dayLedger ((log_water_h ⟨some ⟨80, 184, 26, 45, "X", none⟩, [], none⟩
        "d" none (some "250")).1) "d")
    ∧ accLE (dayLedger ⟨some ⟨80, 184, 26, 45, "X", none⟩, [], none⟩ "d")
      (dayLedger ((food_grams_h ⟨some ⟨80, 184, 26, 45, "X", none⟩, [], none⟩
        "d" "банан" 89 "150").1) "d")
    ∧ accLE (dayLedger ⟨some ⟨80, 184, 26, 45, "X", none⟩, [], none⟩ "d")
      (dayLedger ((log_workout_h ⟨some ⟨80, 184, 26, 45, "X", none⟩, [], none⟩
        "d" (some "бег 30")).1) "d")
    ∧ ledNonneg initLedger :=
  ⟨c6_accumulators_monotone.1 _ "d" none (some "250"),
    c6_accumulators_monotone.2.1 _ "d" "банан" "150" 89 (by norm_num),
    c6_accumulators_monotone.2.2.1 _ "d" (some "бег 30")
      (fun p hp => by cases hp; norm_num),
    c6_accumulators_monotone.2.2.2.1⟩

/-! ## C10: aggregate accumulators agree with the event lists -/

theorem LInv_init : LInv initLedger := by
  simp [LInv, initLedger]

theorem lookD_LInv {ds : List (String × Ledger)} {day : String} {v : Ledger}
    (h : ∀ kv ∈ ds, LInv kv.2) (hl : lookD ds day = some v) : LInv v := by
  induction ds with
  | nil => simp [lookD] at hl
  | cons kv' r ih =>
    obtain ⟨k, w⟩ := kv'
    by_cases hk : k = day
    · simp only [lookD, if_pos hk, Option.some.injEq] at hl
      exact hl ▸ h (k, w) (List.mem_cons_self _ _)
    · simp only [lookD, if_neg hk] at hl
      exact ih (fun kv hkv => h kv (List.mem_cons_of_mem _ hkv)) hl

theorem getD_LInv {ds : List (String × Ledger)} {day : String}
    (h : ∀ kv ∈ ds, LInv kv.2) : LInv ((lookD ds day).getD initLedger) := by
  cases hl : lookD ds day with
  | none => exact LInv_init
  | some v => exact lookD_LInv h hl

theorem days_inv_ensure {ds : List (String × Ledger)} {day : String}
    (h : ∀ kv ∈ ds, LInv kv.2) : ∀ kv ∈ ensure_day ds day, LInv kv.2 := by
  intro kv hkv
  rcases mem_ensure_day hkv with h' | h'
  · rw [h']; exact LInv_init
  · exact h kv h'

theorem days_inv_update {ds : List (String × Ledger)} {day : String}
    {d' : Ledger} (h : ∀ kv ∈ ds, LInv kv.2) (hd : LInv d') :
    ∀ kv ∈ updateDay ds day d', LInv kv.2 := by
  intro kv hkv
  rcases mem_updateDay hkv with h' | h'
  · rw [h']; exact hd
  · exact h kv h'

theorem LInv_water {d : Ledger} (h : LInv d) (ml : ℤ) :
    LInv { d with water_ml := d.water_ml + ml } := h

theorem LInv_food {d : Ledger} (h : LInv d) (n : String) (g kcal : ℚ) :
    LInv { d with cal_in := d.cal_in + kcal
                  foods := d.foods ++ [(n, g, kcal)] } := by
  obtain ⟨h1, h2, h3⟩ := h
  refine ⟨?_, h2, h3⟩
  simp [h1]

theorem LInv_workout {d : Ledger} (h : LInv d) (wt : String) (m b : ℤ) :
    LInv { d with cal_out := d.cal_out + (b : ℚ)
                  workout_extra_water_ml :=
                    d.workout_extra_water_ml + truncQ ((m : ℚ) / 30 * 200)
                  workouts := d.workouts ++ [(wt, m, b)] } := by
  obtain ⟨h1, h2, h3⟩ := h
  refine ⟨h1, ?_, ?_⟩
  · simp [h2]
  · simp [h3]

theorem applyAct_InvAll {u : UserState} (h : InvAll u) (a : Act) :
    InvAll (applyAct u a) := by
  cases a with
  | water day temp args =>
    simp only [applyAct]
    unfold log_water_h
    split
    · exact h
    · split
      · exact h
      · split
        · split
          · exact h
          · exact days_inv_update (days_inv_ensure h)
              (LInv_water (getD_LInv (days_inv_ensure h)) _)
        · exact h
  | food args ps =>
    simp only [applyAct]
    unfold log_food_h
    split
    · exact h
    · split
      · exact h
      · split
        · exact h
        · exact h
  | manualKcal n text =>
    simp only [applyAct]
    unfold food_manual_kcal_h
    split
    · split
      · exact h
      · exact h
    · exact h
  | foodGrams day n k text =>
    simp only [applyAct]
    unfold food_grams_h
    split
    · exact h
    · split
      · split
        · exact h
        · exact days_inv_update (days_inv_ensure h)
            (LInv_food (getD_LInv (days_inv_ensure h)) _ _ _)
      · exact h
  | workout day args =>
    simp only [applyAct]
    unfold log_workout_h
    split
    · exact h
    · split
      · exact h
      · split
        · exact h
        · split
          · split
            · exact h
            · exact days_inv_update (days_inv_ensure h)
                (LInv_workout (getD_LInv (days_inv_ensure h)) _ _ _)
          · exact h
  | progress day temp =>
    simp only [applyAct]
    unfold check_progress_h
    split
    · exact h
    · exact days_inv_ensure h

theorem runActs_InvAll : ∀ (acts : List Act) (u : UserState),
    InvAll u → InvAll (runActs u acts) := by
  intro acts
  induction acts with
  | nil => intro u h; exact h
  | cons a t ih =>
    intro u h
    exact ih (applyAct u a) (applyAct_InvAll h a)

/-- C10: starting from a user with no day ledgers, after every sequence of
handler interactions `cal_in` equals the sum of the foods' kcal entries,
`cal_out` the sum of the workouts' burned-kcal entries, and
`workout_extra_water_ml` the sum of `int((minutes/30)*200)` over the
workout entries — for every ledger in the day dict, and in particular for
the ledger any day's handlers read. -/
theorem c10_ledger_consistency (p : Option Profile) (s : Option Sess)
    (acts : List Act) :
    InvAll (runActs ⟨p, [], s⟩ acts)
    ∧ ∀ day : String, LInv (dayLedger (runActs ⟨p, [], s⟩ acts) day) := by
  have h : InvAll (runActs ⟨p, [], s⟩ acts) :=
    runActs_InvAll acts _ (by intro kv hkv; simp at hkv)
  exact ⟨h, fun day => getD_LInv h⟩

/-- Witness for C10 at a concrete interaction sequence. -/
theorem c10_ledger_consistency_witness :
    InvAll (runActs ⟨some ⟨80, 184, 26, 45, "X", none⟩, [], none⟩
      [.water "d" none (some "250"), .workout "d" (some "бег 30")]) :=
  (c10_ledger_consistency (some ⟨80, 184, 26, 45, "X", none⟩) none
    [.water "d" none (some "250"), .workout "d" (some "бег 30")]).1

/-! ## C8: profile-flow validation and advancement -/

/-- C8: a message failing the current state's validation leaves the state
tag and all collected values unchanged and re-prompts that state's error
text; a message passing validation stores the validated value in its field
(all other collected values unchanged) and advances to the next state of
the fixed linear order weight → height → age → activity → city →
calorie-goal-override (after which the session ends). -/
theorem c8_profile_flow_step :
    (∀ (st : PState) (d : PData) (text : String),
        pValid st text = false →
        profStep st d text = (some st, d, .ask (errMsg st)))
    ∧ (∀ (d : PData) (text : String) (w : ℚ), wVal text = some w →
        profStep .weight d text
          = (nextPState .weight, { d with weight := some w }, okOut .weight))
    ∧ (∀ (d : PData) (text : String) (h : ℚ), hVal text = some h →
        profStep .height d text
          = (nextPState .height, { d with height := some h }, okOut .height))
    ∧ (∀ (d : PData) (text : String) (a : ℤ), aVal text = some a →
        profStep .age d text
          = (nextPState .age, { d with age := some a }, okOut .age))
    ∧ (∀ (d : PData) (text : String) (m : ℤ), mVal text = some m →
        profStep .activity d text
          = (nextPState .activity, { d with activity_min := some m },
              okOut .activity))
    ∧ (∀ (d : PData) (text : String) (c : String), cityVal text = some c →
        profStep .city d text
          = (nextPState .city, { d with city := some c }, okOut .city))
    ∧ (∀ (d : PData) (text : String) (ov : Option ℤ), calVal text = some ov →
        profStep .cal_goal d text
          = (nextPState .cal_goal,
              { d with calorie_goal_override := some ov }, okOut .cal_goal)) := by
  refine ⟨?_, fun d text w hv => by simp [profStep, hv, nextPState],
    fun d text h hv => by simp [profStep, hv, nextPState],
    fun d text a hv => by simp [profStep, hv, nextPState],
    fun d text m hv => by simp [profStep, hv, nextPState],
    fun d text c hv => by simp [profStep, hv, nextPState],
    fun d text ov hv => by simp [profStep, hv, nextPState]⟩
  intro st d text h
  cases st
  case weight =>
    cases hv : wVal text with
    | some w => simp only [pValid, hv, Option.isSome_some] at h; cases h
    | none => simp [profStep, hv]
  case height =>
    cases hv : hVal text with
    | some w => simp only [pValid, hv, Option.isSome_some] at h; cases h
    | none => simp [profStep, hv]
  case age =>
    cases hv : aVal text with
    | some w => simp only [pValid, hv, Option.isSome_some] at h; cases h
    | none => simp [profStep, hv]
  case activity =>
    cases hv : mVal text with
    | some w => simp only [pValid, hv, Option.isSome_some] at h; cases h
    | none => simp [profStep, hv]
  case city =>
    cases hv : cityVal text with
    | some w => simp only [pValid, hv, Option.isSome_some] at h; cases h
    | none => simp [profStep, hv]
  case cal_goal =>
    cases hv : calVal text with
    | some w => simp only [pValid, hv, Option.isSome_some] at h; cases h
    | none => simp [profStep, hv]

/-- Witness for C8: a rejected then an accepted weight message. -/
theorem c8_profile_flow_step_witness :
    profStep .weight ⟨none, none, none, none, none, none⟩ "abc"
        = (some .weight, ⟨none, none, none, none, none, none⟩,
            .ask (errMsg .weight))
    ∧ profStep .weight ⟨none, none, none, none, none, none⟩ "80"
        = (nextPState .weight, ⟨some 80, none, none, none, none, none⟩,
            okOut .weight) :=
  ⟨c8_profile_flow_step.1 .weight _ "abc" (by decide),
    c8_profile_flow_step.2.1 _ "80" 80 (by
      simp +decide [wVal, pyFloat, replaceComma, pyStrip, splitDot,
        charsAllDigits, digitsToNat])⟩

/-! ## C9: commands without a stored profile -/

/-- C9: for a user without a stored profile each of the water-, food- and
workout-logging commands and the progress check returns the fixed
instructional reply, creates no session and leaves the whole user state —
profile, day ledgers and session — unchanged. -/
theorem c9_no_profile_commands (u : UserState) (day : String)
    (temp : Option ℚ) (args argsf argsw : Option String) (ps : List Product)
    (hp : u.profile = none) :
    log_water_h u day temp args = (u, .needProfile)
    ∧ log_food_h u argsf ps = (u, .needProfile)
    ∧ log_workout_h u day argsw = (u, .needProfile)
    ∧ check_progress_h u day temp = (u, .needProfile) := by
  refine ⟨?_, ?_, ?_, ?_⟩
  · simp [log_water_h, hp]
  · simp [log_food_h, hp]
  · simp [log_workout_h, hp]
  · simp [check_progress_h, hp]

/-- Witness for C9: all four commands on a fresh profileless user. -/
theorem c9_no_profile_commands_witness :
    log_water_h ⟨none, [], none⟩ "d" none (some "250")
        = (⟨none, [], none⟩, .needProfile)
    ∧ log_food_h ⟨none, [], none⟩ (some "банан") []
        = (⟨none, [], none⟩, .needProfile)
    ∧ log_workout_h ⟨none, [], none⟩ "d" (some "бег 30")
        = (⟨none, [], none⟩, .needProfile)
    ∧ check_progress_h ⟨none, [], none⟩ "d" none
        = (⟨none, [], none⟩, .needProfile) :=
  c9_no_profile_commands ⟨none, [], none⟩ "d" none (some "250")
    (some "банан") (some "бег 30") [] rfl

end HealthBot
